import Mathlib

/-!
Verification of tcp_connect v0.99 (src/tcp_connect_v0.99.c).

The program is a single `main` that parses `<host> <port> [timeout]`, resolves
the host, creates a non-blocking socket, issues a connect, and — when the
connect reports in-progress — waits with `select` bounded by the timeout and
then queries `SO_ERROR` to decide the outcome.

The embedding below models `main` as a pure function of the argument vector
and an `Env` record holding the outcomes of every operating-system call the
program makes (resolution, socket creation, fcntl, connect, select, readiness
of the descriptor sets, getsockopt).  The produced `RunResult` records the
exit path taken, the exit code, which resources were acquired and released,
the message emitted, and the values the program computed (timeout, port).
-/

namespace TcpConnect

/-- Characters accepted by C `isspace` and skipped by `atoi`. -/
def isSpaceChar (c : Char) : Bool :=
  c = ' ' || c = '\t' || c = '\n' || c = '\r' || c.toNat = 11 || c.toNat = 12

/-- Decimal digit test, as in C `isdigit`. -/
def isDigitChar (c : Char) : Bool :=
  '0' ≤ c && c ≤ '9'

/-- Numeric value of a decimal digit character. -/
def digitVal (c : Char) : Int :=
  (c.toNat : Int) - 48

/-- Accumulate the value of a leading run of decimal digits; stop at the
first non-digit, as C `atoi` does. -/
def atoiDigits : List Char → Int → Int
  | [], acc => acc
  | c :: cs, acc =>
      if isDigitChar c then atoiDigits cs (acc * 10 + digitVal c) else acc

/-- C `atoi`: skip leading whitespace, read an optional sign and a leading
run of digits, ignore the rest of the string; a string with no leading
digits yields 0. -/
def atoi (s : List Char) : Int :=
  match s.dropWhile isSpaceChar with
  | '-' :: rest => - atoiDigits rest 0
  | '+' :: rest => atoiDigits rest 0
  | t => atoiDigits t 0

/-- A command-line argument that is entirely a decimal integer: an optional
sign followed by one or more digits.  Used to state what a "numeric"
argument is; `atoi` accepts strictly more than this (it parses a numeric
prefix and ignores trailing junk). -/
def numericArg (s : List Char) : Bool :=
  match s with
  | '-' :: rest => !rest.isEmpty && rest.all isDigitChar
  | '+' :: rest => !rest.isEmpty && rest.all isDigitChar
  | t => !t.isEmpty && t.all isDigitChar

/-- `#define DEFAULT_TIMEOUT 10` (line 60). -/
def DEFAULT_TIMEOUT : Int := 10

/-- `EXIT_SUCCESS`. -/
def EXIT_SUCCESS : Nat := 0

/-- `EXIT_FAILURE`. -/
def EXIT_FAILURE : Nat := 1

/-- The exit path `main` takes.  Each constructor is one `exit`/`return`
site of the source. -/
inductive ExitPath where
  | usageError              -- line 111: argc < 3 or argc > 4
  | invalidPort             -- line 124: atoi(port) == 0
  | resolveFailure          -- line 145: gethostbyname returned NULL
  | socketFailure           -- line 157: socket() failed
  | fcntlGetFailure         -- line 170: fcntl(F_GETFL) failed
  | fcntlSetFailure         -- line 177: fcntl(F_SETFL) failed
  | connectImmediateFailure -- line 213: connect failed, errno != EINPROGRESS
  | fastPathSuccess         -- line 220: connect succeeded immediately
  | timeoutFailure          -- line 229: select returned 0
  | refusedFailure          -- line 247: getsockopt failed or SO_ERROR != 0
  | connectedSuccess        -- line 254: SO_ERROR == 0
  | statusCheckFailure      -- line 261: descriptor in neither fd-set
deriving Repr, DecidableEq

/-- The final message the program prints.  Constructors with the same
format string in the source share a constructor. -/
inductive Msg where
  | invalidPortMsg
  | resolveFailMsg
  | socketFailMsg
  | fcntlGetFailMsg
  | fcntlSetFailMsg
  | connectFailMsg      -- lines 215 and 249 use the same format string
  | successMsg          -- lines 222 and 256 (stdout)
  | timedOutMsg         -- line 231
  | statusCheckFailMsg  -- line 263
deriving Repr, DecidableEq

/-- The exact `fprintf` format string each message uses in the source. -/
def msgText : Msg → String
  | .invalidPortMsg => "ERROR: Invalid port: %s\n"
  | .resolveFailMsg => "ERROR: Unable to resolve host: %s h_errno=%d (%s)\n"
  | .socketFailMsg => "ERROR: Unable to initialize socket, errno=%d (%s)\n"
  | .fcntlGetFailMsg => "ERROR: Unable to retrieve current socket flags, errno=%d (%s)\n"
  | .fcntlSetFailMsg => "ERROR: Unable to setup non_blocking socket. errno=%d (%s)\n"
  | .connectFailMsg => "ERROR: Unable to connect to host: %s on port: %d, timeout: %d, errno=%d (%s)\n"
  | .successMsg => "Successfully connected to host: %s on port: %d\n"
  | .timedOutMsg => "ERROR: Unable to connect, timed out, to host: %s on port: %d, timeout: %d, errno=%d (%s)\n"
  | .statusCheckFailMsg => "ERROR: Unable to check status of socket to host: %s on port: %d, timeout: %d, errno=%d (%s)\n"

/-- Outcome of the `connect` call (line 205): immediate success, failure
with `errno == EINPROGRESS`, or failure with some other errno. -/
inductive ConnectResult where
  | ok
  | inProgress
  | errOther (e : Int)
deriving Repr, DecidableEq

/-- Outcomes of every system call the program makes, supplied by the
operating system; the program is a pure function of `argv` and this record. -/
structure Env where
  resolveOk : Bool        -- gethostbyname (line 145) returns non-NULL
  socketOk : Bool         -- socket (line 157) returns a descriptor
  fcntlGetOk : Bool       -- fcntl F_GETFL (line 170) succeeds
  fcntlSetOk : Bool       -- fcntl F_SETFL (line 177) succeeds
  connectRes : ConnectResult -- connect (line 205)
  selectRes : Int         -- return value of select (line 229)
  readReady : Bool        -- FD_ISSET(socket, read_fdset) after select (line 244)
  writeReady : Bool       -- FD_ISSET(socket, write_fdset) after select (line 244)
  getsockoptOk : Bool     -- getsockopt SO_ERROR (line 247) succeeds
  soError : Int           -- the SO_ERROR value getsockopt reports
deriving Repr, DecidableEq

/-- Observable trace of one run of `main`. -/
structure RunResult where
  path : ExitPath
  exitCode : Nat
  resolveAttempted : Bool   -- gethostbyname was called
  socketCreated : Bool      -- socket() returned a descriptor
  connectAttempted : Bool   -- connect() was called
  selectCalled : Bool       -- select() was called
  socketClosed : Bool       -- close(socket_handle) ran before exit
  usagePrinted : Bool       -- print_usage ran (stderr)
  warnedTimeout : Bool      -- the invalid-timeout warning (line 134) ran
  finalMsg : Option Msg     -- the outcome message printed
  timeoutUsed : Option Int  -- value of the `timeout` variable once set
  portUsed : Option Int     -- value of (uint16_t) port stored in sin_port (line 166)
  selectArmSec : Option Int  -- time_struct.tv_sec (line 194)
  selectArmUsec : Option Int -- time_struct.tv_usec (line 195)
deriving Repr, DecidableEq

/-- Lines 131-142: the value of the `timeout` variable, from the optional
fourth argument; `atoi` yielding 0 (and an absent argument) falls back to
`DEFAULT_TIMEOUT`. -/
def timeoutOf (rest : List String) : Int :=
  match rest with
  | [tStr] => if atoi tStr.data = 0 then DEFAULT_TIMEOUT else atoi tStr.data
  | _ => DEFAULT_TIMEOUT

/-- Line 134: whether the invalid-timeout warning is printed — a timeout
argument is present and `atoi` yields 0 on it. -/
def warnedOf (rest : List String) : Bool :=
  match rest with
  | [tStr] => atoi tStr.data = 0
  | _ => false

/-- Line 166: the value stored in `sin_port` (in host byte order):
`(uint16_t) port`, i.e. the parsed port reduced modulo 2^16.  `htons`
changes only the byte order, not the value. -/
def sinPortOf (port : Int) : Int :=
  Int.emod port 65536

/-- The `main` function of tcp_connect v0.99 (lines 90-276), as a pure
function of the argument vector (`argv`, program name included) and the
operating-system outcomes `env`.  Each branch mirrors one conditional of
the source in order, and each exit site lists the full observable state
at that exit. -/
def run (argv : List String) (env : Env) : RunResult :=
  match argv with
  | _ :: _ :: portStr :: rest =>
    -- line 111: argc < 3 || argc > 4  (here argc = rest.length + 3)
    if rest.length > 1 then
      ⟨.usageError, EXIT_FAILURE, false, false, false, false, false,
       true, false, none, none, none, none, none⟩
    else
    -- line 124: port = atoi(argv[2])
    if atoi portStr.data = 0 then
      ⟨.invalidPort, EXIT_FAILURE, false, false, false, false, false,
       true, false, some .invalidPortMsg, none, none, none, none⟩
    else
    -- lines 131-142: timeout established (timeoutOf, warnedOf);
    -- line 145: gethostbyname
    if env.resolveOk = false then
      ⟨.resolveFailure, EXIT_FAILURE, true, false, false, false, false,
       false, warnedOf rest, some .resolveFailMsg, some (timeoutOf rest),
       none, none, none⟩
    else
    -- line 157: socket()
    if env.socketOk = false then
      ⟨.socketFailure, EXIT_FAILURE, true, false, false, false, false,
       false, warnedOf rest, some .socketFailMsg, some (timeoutOf rest),
       none, none, none⟩
    else
    -- lines 164-167: server_sock filled in (sinPortOf);
    -- line 170: fcntl F_GETFL; on failure: exit(EXIT_FAILURE) without close
    if env.fcntlGetOk = false then
      ⟨.fcntlGetFailure, EXIT_FAILURE, true, true, false, false, false,
       false, warnedOf rest, some .fcntlGetFailMsg, some (timeoutOf rest),
       some (sinPortOf (atoi portStr.data)), none, none⟩
    else
    -- line 177: fcntl F_SETFL O_NONBLOCK; on failure: exit without close
    if env.fcntlSetOk = false then
      ⟨.fcntlSetFailure, EXIT_FAILURE, true, true, false, false, false,
       false, warnedOf rest, some .fcntlSetFailMsg, some (timeoutOf rest),
       some (sinPortOf (atoi portStr.data)), none, none⟩
    else
    -- lines 185-195: fd-sets armed; time_struct = { timeout, 0 };
    -- line 205: connect
    match env.connectRes with
    | .ok =>
        -- lines 220-225: fast path; close then exit(EXIT_SUCCESS)
        ⟨.fastPathSuccess, EXIT_SUCCESS, true, true, true, false, true,
         false, warnedOf rest, some .successMsg, some (timeoutOf rest),
         some (sinPortOf (atoi portStr.data)), some (timeoutOf rest), some 0⟩
    | .errOther _ =>
        -- lines 213-218: exit(EXIT_FAILURE) without close
        ⟨.connectImmediateFailure, EXIT_FAILURE, true, true, true, false,
         false, false, warnedOf rest, some .connectFailMsg,
         some (timeoutOf rest), some (sinPortOf (atoi portStr.data)),
         some (timeoutOf rest), some 0⟩
    | .inProgress =>
        -- line 229: select(...) == 0 means timeout
        if env.selectRes = 0 then
          ⟨.timeoutFailure, EXIT_FAILURE, true, true, true, true, true,
           false, warnedOf rest, some .timedOutMsg, some (timeoutOf rest),
           some (sinPortOf (atoi portStr.data)), some (timeoutOf rest),
           some 0⟩
        else
        -- line 244: FD_ISSET on read_fdset or write_fdset
        if env.readReady || env.writeReady then
          -- line 247: getsockopt SO_ERROR
          if env.getsockoptOk = false || env.soError ≠ 0 then
            ⟨.refusedFailure, EXIT_FAILURE, true, true, true, true, true,
             false, warnedOf rest, some .connectFailMsg, some (timeoutOf rest),
             some (sinPortOf (atoi portStr.data)), some (timeoutOf rest),
             some 0⟩
          else
            ⟨.connectedSuccess, EXIT_SUCCESS, true, true, true, true, true,
             false, warnedOf rest, some .successMsg, some (timeoutOf rest),
             some (sinPortOf (atoi portStr.data)), some (timeoutOf rest),
             some 0⟩
        else
          -- lines 261-267
          ⟨.statusCheckFailure, EXIT_FAILURE, true, true, true, true, true,
           false, warnedOf rest, some .statusCheckFailMsg,
           some (timeoutOf rest), some (sinPortOf (atoi portStr.data)),
           some (timeoutOf rest), some 0⟩
  | _ =>
    ⟨.usageError, EXIT_FAILURE, false, false, false, false, false,
     true, false, none, none, none, none, none⟩

/-! Concrete operating-system behaviours used to exercise the model:
field order is resolveOk, socketOk, fcntlGetOk, fcntlSetOk, connectRes,
selectRes, readReady, writeReady, getsockoptOk, soError. -/

/-- Everything succeeds and `connect` completes immediately. -/
def envOkFast : Env := ⟨true, true, true, true, .ok, 1, false, true, true, 0⟩

/-- `connect` fails immediately with `ECONNREFUSED` (111). -/
def envConnRefused : Env :=
  ⟨true, true, true, true, .errOther 111, 1, false, false, true, 0⟩

/-- `connect` reports in-progress and `select` returns 0 (expiry). -/
def envTimedOut : Env :=
  ⟨true, true, true, true, .inProgress, 0, false, false, true, 0⟩

/-- `connect` reports in-progress; `select` fails with a negative result
(e.g. `EINTR`) leaving the descriptor sets as armed; `SO_ERROR` is 0. -/
def envSelErr : Env :=
  ⟨true, true, true, true, .inProgress, -1, true, false, true, 0⟩

/-- `connect` reports in-progress; `select` fails with a negative result
(e.g. `EINTR`) with neither descriptor set marked; `SO_ERROR` is 0. -/
def envSelErrEmpty : Env :=
  ⟨true, true, true, true, .inProgress, -3, false, false, true, 0⟩

/-- `connect` reports in-progress; `select` signals writability; the
pending error is 0 (deferred success). -/
def envPendingOk : Env :=
  ⟨true, true, true, true, .inProgress, 1, false, true, true, 0⟩

/-- `connect` reports in-progress; `select` signals writability; the
pending error is `ECONNREFUSED` (111). -/
def envPendingErr : Env :=
  ⟨true, true, true, true, .inProgress, 1, false, true, true, 111⟩

/-- Claim C2: the process exit status is success (0) exactly when the
attempt resolves to Connected — the immediate fast path or a zero pending
error after readiness; every other outcome exits non-zero. -/
theorem exit_success_iff_connected (argv : List String) (env : Env) :
    (run argv env).exitCode = EXIT_SUCCESS ↔
      ((run argv env).path = ExitPath.fastPathSuccess ∨
       (run argv env).path = ExitPath.connectedSuccess) := by
  unfold run
  repeat' split
  all_goals simp [EXIT_SUCCESS, EXIT_FAILURE]

/-- Claim C1, counterexample: when `connect` fails immediately (errno
other than `EINPROGRESS`, line 213), the program exits without closing
the socket it created — the handle is not released on this exit path
from the Connecting state, contrary to the claim. -/
theorem socket_leak_cex :
    (run ["tcp_connect", "example.com", "80"] envConnRefused).socketCreated
      = true ∧
    (run ["tcp_connect", "example.com", "80"] envConnRefused).path
      = ExitPath.connectImmediateFailure ∧
    (run ["tcp_connect", "example.com", "80"] envConnRefused).socketClosed
      = false := by
  decide

/-- Claim C1, amended: once the socket is created it is closed before exit
on the fast-path success and on every exit from the Waiting and Resolving
states (timeout, refused, connected, status-check failure), but NOT on the
two fcntl-failure exits nor on the immediate connect-failure exit, where
the program exits without `close`. -/
theorem socket_release_iff (argv : List String) (env : Env) :
    (run argv env).socketClosed = true ↔
      ((run argv env).socketCreated = true ∧
       (run argv env).path ≠ ExitPath.fcntlGetFailure ∧
       (run argv env).path ≠ ExitPath.fcntlSetFailure ∧
       (run argv env).path ≠ ExitPath.connectImmediateFailure) := by
  unfold run
  repeat' split
  all_goals simp

set_option maxHeartbeats 1600000 in
/-- Claim C7: when `connect` completes immediately with success, the
probe short-circuits to Connected — success message, handle closed,
success exit — without the wait phase ever running, whatever the budget. -/
theorem fast_path_short_circuit (prog host portStr : String)
    (rest : List String) (env : Env)
    (hlen : rest.length ≤ 1) (hport : atoi portStr.data ≠ 0)
    (hres : env.resolveOk = true) (hsock : env.socketOk = true)
    (hfg : env.fcntlGetOk = true) (hfs : env.fcntlSetOk = true)
    (hconn : env.connectRes = ConnectResult.ok) :
    (run (prog :: host :: portStr :: rest) env).path
        = ExitPath.fastPathSuccess ∧
    (run (prog :: host :: portStr :: rest) env).exitCode = EXIT_SUCCESS ∧
    (run (prog :: host :: portStr :: rest) env).finalMsg
        = some Msg.successMsg ∧
    (run (prog :: host :: portStr :: rest) env).socketClosed = true ∧
    (run (prog :: host :: portStr :: rest) env).selectCalled = false := by
  unfold run
  repeat' split
  all_goals simp_all
  all_goals omega

/-- Claim C7, witness: a concrete fast-path run. -/
theorem fast_path_short_circuit_witness :
    (run ["tcp_connect", "localhost", "22"] envOkFast).path
        = ExitPath.fastPathSuccess ∧
    (run ["tcp_connect", "localhost", "22"] envOkFast).exitCode
        = EXIT_SUCCESS ∧
    (run ["tcp_connect", "localhost", "22"] envOkFast).finalMsg
        = some Msg.successMsg ∧
    (run ["tcp_connect", "localhost", "22"] envOkFast).socketClosed = true ∧
    (run ["tcp_connect", "localhost", "22"] envOkFast).selectCalled
        = false :=
  fast_path_short_circuit "tcp_connect" "localhost" "22" [] envOkFast
    (by decide) (by decide) rfl rfl rfl rfl rfl

/-- The timeout diagnostic (line 231) and the connect-failure diagnostic
(lines 215/249) are distinct format strings. -/
theorem timedOut_msg_distinct :
    msgText Msg.timedOutMsg ≠ msgText Msg.connectFailMsg := by
  decide

set_option maxHeartbeats 1600000 in
/-- Claim C3: if `select` was reached and returned 0 (the bounded wait
expired with no readiness), the run ends at the TimedOut exit: the
distinct timeout diagnostic is emitted (a different format string from the
Refused one), the socket is closed, the process exits with failure, and
there is no retry (the path is terminal); the wait was armed with exactly
the budget (`tv_sec = timeout`) and a zero microsecond component. -/
theorem timeout_expiry_outcome (argv : List String) (env : Env)
    (hzero : env.selectRes = 0) :
    (run argv env).selectCalled = true →
      (run argv env).path = ExitPath.timeoutFailure ∧
      (run argv env).exitCode = EXIT_FAILURE ∧
      (run argv env).socketClosed = true ∧
      (run argv env).finalMsg = some Msg.timedOutMsg ∧
      msgText Msg.timedOutMsg ≠ msgText Msg.connectFailMsg ∧
      (run argv env).selectArmSec = (run argv env).timeoutUsed ∧
      (run argv env).selectArmUsec = some 0 := by
  unfold run
  repeat' split
  all_goals simp_all [EXIT_FAILURE, timedOut_msg_distinct]

/-- Claim C3, witness: a concrete expired wait. -/
theorem timeout_expiry_outcome_witness :
    envTimedOut.selectRes = 0 ∧
    (run ["tcp_connect", "10.255.255.1", "9", "2"] envTimedOut).selectCalled
      = true ∧
    ((run ["tcp_connect", "10.255.255.1", "9", "2"] envTimedOut).path
        = ExitPath.timeoutFailure ∧
     (run ["tcp_connect", "10.255.255.1", "9", "2"] envTimedOut).exitCode
        = EXIT_FAILURE ∧
     (run ["tcp_connect", "10.255.255.1", "9", "2"] envTimedOut).socketClosed
        = true ∧
     (run ["tcp_connect", "10.255.255.1", "9", "2"] envTimedOut).finalMsg
        = some Msg.timedOutMsg ∧
     msgText Msg.timedOutMsg ≠ msgText Msg.connectFailMsg ∧
     (run ["tcp_connect", "10.255.255.1", "9", "2"] envTimedOut).selectArmSec
        = (run ["tcp_connect", "10.255.255.1", "9", "2"] envTimedOut).timeoutUsed ∧
     (run ["tcp_connect", "10.255.255.1", "9", "2"] envTimedOut).selectArmUsec
        = some 0) :=
  ⟨rfl, by decide,
   timeout_expiry_outcome ["tcp_connect", "10.255.255.1", "9", "2"]
     envTimedOut rfl (by decide)⟩

set_option maxHeartbeats 3200000 in
/-- Claim C4: when `select` was reached and returned ready (positive), and
the descriptor is marked in the read set or the write set, the pending
error decides the outcome: success exactly when `getsockopt` succeeds and
`SO_ERROR` is 0, otherwise the refused exit with the failure diagnostic;
the socket is closed either way.  Readiness alone is never success. -/
theorem readiness_pending_error_decides (argv : List String) (env : Env)
    (hpos : 0 < env.selectRes)
    (hready : env.readReady = true ∨ env.writeReady = true) :
    (run argv env).selectCalled = true →
      (((run argv env).path = ExitPath.connectedSuccess ∧
        (run argv env).exitCode = EXIT_SUCCESS ∧
        (run argv env).finalMsg = some Msg.successMsg) ∨
       ((run argv env).path = ExitPath.refusedFailure ∧
        (run argv env).exitCode = EXIT_FAILURE ∧
        (run argv env).finalMsg = some Msg.connectFailMsg)) ∧
      ((run argv env).path = ExitPath.connectedSuccess ↔
        (env.getsockoptOk = true ∧ env.soError = 0)) ∧
      (run argv env).socketClosed = true := by
  have hne : env.selectRes ≠ 0 := by omega
  rcases hready with h | h <;>
    (unfold run; repeat' split;
     all_goals try simp_all [EXIT_SUCCESS, EXIT_FAILURE];
     all_goals
       (intro hgo hse
        rcases ‹env.getsockoptOk = false ∨ ¬env.soError = 0› with hc | hc
        · simp_all
        · exact hc hse))

/-- Claim C4, witness: a concrete readiness with zero pending error. -/
theorem readiness_pending_error_decides_witness :
    (0 < envPendingOk.selectRes ∧
     (envPendingOk.readReady = true ∨ envPendingOk.writeReady = true) ∧
     (run ["tcp_connect", "example.com", "80"] envPendingOk).selectCalled
       = true) ∧
    ((((run ["tcp_connect", "example.com", "80"] envPendingOk).path
         = ExitPath.connectedSuccess ∧
       (run ["tcp_connect", "example.com", "80"] envPendingOk).exitCode
         = EXIT_SUCCESS ∧
       (run ["tcp_connect", "example.com", "80"] envPendingOk).finalMsg
         = some Msg.successMsg) ∨
      ((run ["tcp_connect", "example.com", "80"] envPendingOk).path
         = ExitPath.refusedFailure ∧
       (run ["tcp_connect", "example.com", "80"] envPendingOk).exitCode
         = EXIT_FAILURE ∧
       (run ["tcp_connect", "example.com", "80"] envPendingOk).finalMsg
         = some Msg.connectFailMsg)) ∧
     ((run ["tcp_connect", "example.com", "80"] envPendingOk).path
         = ExitPath.connectedSuccess ↔
       (envPendingOk.getsockoptOk = true ∧ envPendingOk.soError = 0)) ∧
     (run ["tcp_connect", "example.com", "80"] envPendingOk).socketClosed
       = true) :=
  ⟨⟨by decide, Or.inr rfl, by decide⟩,
   readiness_pending_error_decides ["tcp_connect", "example.com", "80"]
     envPendingOk (by decide) (Or.inr rfl) (by decide)⟩

/-- Claim C10, counterexample: when `select` itself fails (negative
result, e.g. interruption) with the descriptor sets still marked as they
were armed and a zero pending error, the program reports SUCCESS — not
one of the two failure reports the claim allows — and exits 0. -/
theorem select_error_cex :
    envSelErr.selectRes < 0 ∧
    (run ["tcp_connect", "example.com", "80"] envSelErr).path
      = ExitPath.connectedSuccess ∧
    (run ["tcp_connect", "example.com", "80"] envSelErr).exitCode
      = EXIT_SUCCESS ∧
    (run ["tcp_connect", "example.com", "80"] envSelErr).finalMsg
      = some Msg.successMsg := by
  decide

set_option maxHeartbeats 1600000 in
/-- Claim C10, amended: when `select` returns a negative error result the
program does not report a timeout (the timeout branch tests `== 0` only)
and falls through to the descriptor-set readiness check, ending in one of
the connected-success, refused, or status-check-failure exits — which one
depends on the (unspecified) descriptor-set contents and the pending
error, so a success report is also possible; the socket is closed on all
three, and the exit status is failure on the two failure exits. -/
theorem select_error_fallthrough (argv : List String) (env : Env)
    (hneg : env.selectRes < 0) :
    (run argv env).selectCalled = true →
      (run argv env).path ≠ ExitPath.timeoutFailure ∧
      (run argv env).finalMsg ≠ some Msg.timedOutMsg ∧
      ((run argv env).path = ExitPath.connectedSuccess ∨
       (run argv env).path = ExitPath.refusedFailure ∨
       (run argv env).path = ExitPath.statusCheckFailure) ∧
      (run argv env).socketClosed = true ∧
      ((run argv env).path ≠ ExitPath.connectedSuccess →
        (run argv env).exitCode = EXIT_FAILURE) := by
  have hne : env.selectRes ≠ 0 := by omega
  unfold run
  repeat' split
  all_goals simp_all [EXIT_FAILURE]

/-- Claim C10, witness: a concrete failed `select` falling through to the
status-check-failure exit. -/
theorem select_error_fallthrough_witness :
    envSelErrEmpty.selectRes < 0 ∧
    (run ["tcp_connect", "example.com", "80"] envSelErrEmpty).selectCalled
      = true ∧
    ((run ["tcp_connect", "example.com", "80"] envSelErrEmpty).path
        ≠ ExitPath.timeoutFailure ∧
     (run ["tcp_connect", "example.com", "80"] envSelErrEmpty).finalMsg
        ≠ some Msg.timedOutMsg ∧
     ((run ["tcp_connect", "example.com", "80"] envSelErrEmpty).path
         = ExitPath.connectedSuccess ∨
      (run ["tcp_connect", "example.com", "80"] envSelErrEmpty).path
         = ExitPath.refusedFailure ∨
      (run ["tcp_connect", "example.com", "80"] envSelErrEmpty).path
         = ExitPath.statusCheckFailure) ∧
     (run ["tcp_connect", "example.com", "80"] envSelErrEmpty).socketClosed
        = true ∧
     ((run ["tcp_connect", "example.com", "80"] envSelErrEmpty).path
         ≠ ExitPath.connectedSuccess →
       (run ["tcp_connect", "example.com", "80"] envSelErrEmpty).exitCode
         = EXIT_FAILURE)) :=
  ⟨by decide, by decide,
   select_error_fallthrough ["tcp_connect", "example.com", "80"]
     envSelErrEmpty (by decide) (by decide)⟩

/-- Claim C5, counterexample: the timeout argument `-5` fails to parse to
a positive integer, yet `atoi` yields the non-zero value -5, so the
fallback (line 133 tests `== 0` only) does not trigger: the budget used is
-5 — not the default 10 and not positive. -/
theorem timeout_fallback_cex :
    (run ["tcp_connect", "example.com", "80", "-5"] envOkFast).timeoutUsed
      = some (-5) ∧
    ¬ (0 < (-5 : Int)) ∧
    (-5 : Int) ≠ DEFAULT_TIMEOUT ∧
    (run ["tcp_connect", "example.com", "80", "-5"] envOkFast).warnedTimeout
      = false := by
  decide

set_option maxHeartbeats 1600000 in
/-- Claim C5, amended: the budget falls back to the default 10 (with the
non-fatal warning) exactly when `atoi` yields 0 on the supplied timeout
argument, and is the default when no timeout argument is supplied;
otherwise the budget is the `atoi` value itself, which is non-zero but may
be negative.  The probe proceeds in every case. -/
theorem timeout_budget_amended (prog host portStr tStr : String)
    (env : Env) :
    (∀ rest : List String, rest.length ≤ 1 → atoi portStr.data ≠ 0 →
       (run (prog :: host :: portStr :: rest) env).timeoutUsed
         = some (timeoutOf rest) ∧
       (run (prog :: host :: portStr :: rest) env).warnedTimeout
         = warnedOf rest ∧
       (run (prog :: host :: portStr :: rest) env).path
         ≠ ExitPath.usageError ∧
       (run (prog :: host :: portStr :: rest) env).path
         ≠ ExitPath.invalidPort) ∧
    timeoutOf [] = DEFAULT_TIMEOUT ∧
    (atoi tStr.data = 0 →
       timeoutOf [tStr] = DEFAULT_TIMEOUT ∧ warnedOf [tStr] = true) ∧
    (atoi tStr.data ≠ 0 →
       timeoutOf [tStr] = atoi tStr.data ∧ warnedOf [tStr] = false) ∧
    (∀ rest : List String, timeoutOf rest ≠ 0) := by
  refine ⟨?_, by decide, ?_, ?_, ?_⟩
  · intro rest hlen hport
    unfold run
    repeat' split
    all_goals try simp_all
    all_goals omega
  · intro h
    simp [timeoutOf, warnedOf, h]
  · intro h
    simp [timeoutOf, warnedOf, h]
  · intro rest
    rcases rest with _ | ⟨tS, _ | ⟨u, us⟩⟩
    · decide
    · by_cases h : atoi tS.data = 0 <;> simp [timeoutOf, h, DEFAULT_TIMEOUT]
    · simp [timeoutOf, DEFAULT_TIMEOUT]

/-- Claim C5, witness: timeout argument "abc" parses to 0, the default 10
is used with the warning, and the probe proceeds. -/
theorem timeout_budget_amended_witness :
    ((["abc"] : List String).length ≤ 1 ∧ atoi "80".data ≠ 0) ∧
    ((run ["tcp_connect", "example.com", "80", "abc"] envOkFast).timeoutUsed
        = some (timeoutOf ["abc"]) ∧
     (run ["tcp_connect", "example.com", "80", "abc"] envOkFast).warnedTimeout
        = warnedOf ["abc"] ∧
     (run ["tcp_connect", "example.com", "80", "abc"] envOkFast).path
        ≠ ExitPath.usageError ∧
     (run ["tcp_connect", "example.com", "80", "abc"] envOkFast).path
        ≠ ExitPath.invalidPort) ∧
    (atoi "abc".data = 0 ∧
     timeoutOf ["abc"] = DEFAULT_TIMEOUT ∧ warnedOf ["abc"] = true) :=
  ⟨⟨by decide, by decide⟩,
   (timeout_budget_amended "tcp_connect" "example.com" "80" "abc"
      envOkFast).1 ["abc"] (by decide) (by decide),
   by decide,
   (timeout_budget_amended "tcp_connect" "example.com" "80" "abc"
      envOkFast).2.2.1 (by decide)⟩

/-- Claim C6, counterexample: the port argument 70000 lies outside
[1,65535], yet it is not rejected: the probe proceeds to full network
activity and the address carries the truncated port 4464
(70000 mod 2^16). -/
theorem port_range_cex :
    ((65535 : Int) < 70000) ∧
    atoi "70000".data = 70000 ∧
    (run ["tcp_connect", "example.com", "70000"] envOkFast).path
      = ExitPath.fastPathSuccess ∧
    (run ["tcp_connect", "example.com", "70000"] envOkFast).socketCreated
      = true ∧
    (run ["tcp_connect", "example.com", "70000"] envOkFast).connectAttempted
      = true ∧
    (run ["tcp_connect", "example.com", "70000"] envOkFast).exitCode
      = EXIT_SUCCESS ∧
    (run ["tcp_connect", "example.com", "70000"] envOkFast).portUsed
      = some 4464 := by
  decide

set_option maxHeartbeats 1600000 in
/-- Claim C6, amended: a port argument is rejected (error, usage text,
failure exit, before any network activity) exactly when `atoi` yields 0
on it; every port actually placed in the connection address is the `atoi`
value reduced modulo 2^16, hence an integer in [0,65535] — out-of-range
arguments are truncated, not rejected. -/
theorem port_validation_amended (prog host portStr : String)
    (rest : List String) (env : Env) :
    (atoi portStr.data = 0 → rest.length ≤ 1 →
       (run (prog :: host :: portStr :: rest) env).path
         = ExitPath.invalidPort ∧
       (run (prog :: host :: portStr :: rest) env).exitCode = EXIT_FAILURE ∧
       (run (prog :: host :: portStr :: rest) env).usagePrinted = true ∧
       (run (prog :: host :: portStr :: rest) env).finalMsg
         = some Msg.invalidPortMsg ∧
       (run (prog :: host :: portStr :: rest) env).resolveAttempted = false ∧
       (run (prog :: host :: portStr :: rest) env).socketCreated = false ∧
       (run (prog :: host :: portStr :: rest) env).connectAttempted
         = false) ∧
    (∀ p : Int,
       (run (prog :: host :: portStr :: rest) env).portUsed = some p →
       p = sinPortOf (atoi portStr.data) ∧ 0 ≤ p ∧ p < 65536) := by
  constructor
  · intro hz hlen
    rw [run.eq_1]
    repeat' split
    all_goals simp_all
    all_goals omega
  · intro p
    have h0 : 0 ≤ Int.emod (atoi portStr.data) 65536 :=
      Int.emod_nonneg _ (by decide)
    have h1 : Int.emod (atoi portStr.data) 65536 < 65536 :=
      Int.emod_lt_of_pos _ (by decide)
    rw [run.eq_1]
    repeat' split
    all_goals intro hp
    all_goals simp [sinPortOf] at hp
    all_goals subst hp
    all_goals exact ⟨rfl, h0, h1⟩

/-- Claim C6, witness: "zz" is rejected as a port with usage text and no
network activity; the probed port for "70000" is 4464 ∈ [0,65535]. -/
theorem port_validation_amended_witness :
    ((run ["tcp_connect", "example.com", "zz"] envOkFast).path
        = ExitPath.invalidPort ∧
     (run ["tcp_connect", "example.com", "zz"] envOkFast).exitCode
        = EXIT_FAILURE ∧
     (run ["tcp_connect", "example.com", "zz"] envOkFast).usagePrinted
        = true ∧
     (run ["tcp_connect", "example.com", "zz"] envOkFast).finalMsg
        = some Msg.invalidPortMsg ∧
     (run ["tcp_connect", "example.com", "zz"] envOkFast).resolveAttempted
        = false ∧
     (run ["tcp_connect", "example.com", "zz"] envOkFast).socketCreated
        = false ∧
     (run ["tcp_connect", "example.com", "zz"] envOkFast).connectAttempted
        = false) ∧
    ((4464 : Int) = sinPortOf (atoi "70000".data) ∧
     (0 : Int) ≤ 4464 ∧ (4464 : Int) < 65536) :=
  ⟨(port_validation_amended "tcp_connect" "example.com" "zz" []
      envOkFast).1 (by decide) (by decide),
   (port_validation_amended "tcp_connect" "example.com" "70000" []
      envOkFast).2 4464 (by decide)⟩

/-- Claim C8, counterexample: the port argument "12abc" is not a numeric
string, yet the program does not print usage and exit: `atoi` parses the
prefix 12, and the probe performs full network activity on port 12 and
can even exit with success. -/
theorem arg_validation_cex :
    numericArg "12abc".data = false ∧
    (run ["tcp_connect", "example.com", "12abc"] envOkFast).usagePrinted
      = false ∧
    (run ["tcp_connect", "example.com", "12abc"] envOkFast).path
      = ExitPath.fastPathSuccess ∧
    (run ["tcp_connect", "example.com", "12abc"] envOkFast).resolveAttempted
      = true ∧
    (run ["tcp_connect", "example.com", "12abc"] envOkFast).socketCreated
      = true ∧
    (run ["tcp_connect", "example.com", "12abc"] envOkFast).connectAttempted
      = true ∧
    (run ["tcp_connect", "example.com", "12abc"] envOkFast).exitCode
      = EXIT_SUCCESS ∧
    (run ["tcp_connect", "example.com", "12abc"] envOkFast).portUsed
      = some 12 := by
  decide

set_option maxHeartbeats 1600000 in
/-- Claim C8, amended: with an argument count other than 2 or 3 (program
name excluded), and likewise whenever `atoi` yields 0 on the port argument
(the string "0", or a string with no leading digits — but NOT a non-zero
numeric prefix with trailing junk), the program prints usage to standard
error and exits with failure before any network activity: no resolution,
no socket creation, no connect. -/
theorem arg_validation_amended (argv : List String) (env : Env) :
    ((argv.length < 3 ∨ argv.length > 4) →
       (run argv env).path = ExitPath.usageError ∧
       (run argv env).exitCode = EXIT_FAILURE ∧
       (run argv env).usagePrinted = true ∧
       (run argv env).resolveAttempted = false ∧
       (run argv env).socketCreated = false ∧
       (run argv env).connectAttempted = false ∧
       (run argv env).selectCalled = false) ∧
    (∀ prog host portStr rest,
       argv = prog :: host :: portStr :: rest →
       rest.length ≤ 1 → atoi portStr.data = 0 →
       (run argv env).path = ExitPath.invalidPort ∧
       (run argv env).exitCode = EXIT_FAILURE ∧
       (run argv env).usagePrinted = true ∧
       (run argv env).resolveAttempted = false ∧
       (run argv env).socketCreated = false ∧
       (run argv env).connectAttempted = false ∧
       (run argv env).selectCalled = false) := by
  constructor
  · intro hbad
    rcases argv with _ | ⟨a, tl⟩
    · simp [run]
    rcases tl with _ | ⟨b, tl2⟩
    · simp [run]
    rcases tl2 with _ | ⟨c, rest⟩
    · simp [run]
    · have hlen : rest.length > 1 := by
        simp [List.length_cons] at hbad
        omega
      simp [run, hlen]
  · intro prog host portStr rest heq hlen hz
    subst heq
    unfold run
    repeat' split
    all_goals simp_all
    all_goals omega

/-- Claim C8 (amended), witness: one invocation with a single argument
and one with port "0", both rejected before any network activity. -/
theorem arg_validation_amended_witness :
    ((run ["tcp_connect"] envOkFast).path = ExitPath.usageError ∧
     (run ["tcp_connect"] envOkFast).exitCode = EXIT_FAILURE ∧
     (run ["tcp_connect"] envOkFast).usagePrinted = true ∧
     (run ["tcp_connect"] envOkFast).resolveAttempted = false ∧
     (run ["tcp_connect"] envOkFast).socketCreated = false ∧
     (run ["tcp_connect"] envOkFast).connectAttempted = false ∧
     (run ["tcp_connect"] envOkFast).selectCalled = false) ∧
    ((run ["tcp_connect", "example.com", "0"] envOkFast).path
        = ExitPath.invalidPort ∧
     (run ["tcp_connect", "example.com", "0"] envOkFast).exitCode
        = EXIT_FAILURE ∧
     (run ["tcp_connect", "example.com", "0"] envOkFast).usagePrinted
        = true ∧
     (run ["tcp_connect", "example.com", "0"] envOkFast).resolveAttempted
        = false ∧
     (run ["tcp_connect", "example.com", "0"] envOkFast).socketCreated
        = false ∧
     (run ["tcp_connect", "example.com", "0"] envOkFast).connectAttempted
        = false ∧
     (run ["tcp_connect", "example.com", "0"] envOkFast).selectCalled
        = false) :=
  ⟨(arg_validation_amended ["tcp_connect"] envOkFast).1 (by decide),
   (arg_validation_amended ["tcp_connect", "example.com", "0"]
      envOkFast).2 "tcp_connect" "example.com" "0" [] rfl
      (by decide) (by decide)⟩

set_option maxHeartbeats 1600000 in
/-- Claim C9: whenever `atoi` parses the port argument to a non-zero
integer n — negative and >65535 values included — the probe proceeds past
validation, and the port placed in the connection address is n reduced
modulo 2^16, the effect of the `(uint16_t)` cast before `htons`
(line 166). -/
theorem port_truncation (prog host portStr : String) (rest : List String)
    (env : Env) (hlen : rest.length ≤ 1) (hport : atoi portStr.data ≠ 0) :
    (run (prog :: host :: portStr :: rest) env).path
        ≠ ExitPath.usageError ∧
    (run (prog :: host :: portStr :: rest) env).path
        ≠ ExitPath.invalidPort ∧
    ((run (prog :: host :: portStr :: rest) env).socketCreated = true →
      (run (prog :: host :: portStr :: rest) env).portUsed
        = some (Int.emod (atoi portStr.data) 65536)) := by
  unfold run
  repeat' split
  all_goals try simp_all [sinPortOf]
  all_goals omega

/-- Claim C9, witness: port "70000" proceeds and is probed as
70000 mod 2^16 = 4464; port "-5" would likewise be probed as 65531. -/
theorem port_truncation_witness :
    ((["tcp_connect", "example.com", "70000"] : List String).length = 3 ∧
     atoi "70000".data ≠ 0) ∧
    ((run ["tcp_connect", "example.com", "70000"] envOkFast).path
        ≠ ExitPath.usageError ∧
     (run ["tcp_connect", "example.com", "70000"] envOkFast).path
        ≠ ExitPath.invalidPort ∧
     ((run ["tcp_connect", "example.com", "70000"] envOkFast).socketCreated
         = true →
       (run ["tcp_connect", "example.com", "70000"] envOkFast).portUsed
         = some (Int.emod (atoi "70000".data) 65536))) ∧
    Int.emod (atoi "70000".data) 65536 = 4464 :=
  ⟨⟨rfl, by decide⟩,
   port_truncation "tcp_connect" "example.com" "70000" [] envOkFast
     (by decide) (by decide),
   by decide⟩

end TcpConnect
